import Mathlib

/-!
Verification of the XML travel-availability request parser
(`xml_requests_parser.py`) against its specification.

The source is shallowly embedded: the XML document view is abstracted as a
record of the query results the code reads (`findtext`, `find`, `findall`,
attribute access), Python `datetime` values are integers counting
microseconds since the civil epoch 1970-01-01 (so `strptime` of a
`DD/MM/YYYY` string yields a midnight, a whole multiple of `usPerDay`,
while `datetime.today()` is an arbitrary instant), Python exceptions are an
`Except PyErr` result, and Python floats are modelled as rationals.
The module `constants.py` imported by the source is not part of the
sources; its contents are kept as parameters in `Config`, with one concrete
instance modelled from the spec for ground evaluation.
-/

deriving instance DecidableEq for Except

namespace XmlRequestsParser

/-- A raised Python exception: the code raises `ValueError` with a message;
`strptime` applied to `None` (a missing element text) raises `TypeError`. -/
inductive PyErr where
  | valueError (msg : String)
  | typeError (msg : String)
deriving DecidableEq, Repr

/-- One guest entry as built by `_parse_rooms`: the dict
`{"type": pax_type, "age": age}`. -/
structure Pax where
  type : String
  age : Int
deriving DecidableEq, Repr

/-- The reference data the source imports from `constants.py` (a file not in
the sources): defaults, allowed sets, occupancy limits, exchange-rate table
and pricing constants. Kept abstract; theorems quantify over it. -/
structure Config where
  defaultLanguage : String
  defaultCurrency : String
  defaultNationality : String
  validLanguages : List String
  validCurrencies : List String
  validNationalities : List String
  childAgeLimit : Int
  allowedChildCountPerRoom : Nat
  allowedRoomGuestCount : Nat
  exchangeRates : List ((String × String) × ℚ)
  netPrice : ℚ
  markupPercentage : ℚ
deriving DecidableEq, Repr

/-- The document view: results of the fixed-path queries `parse_xml` makes.
`none` stands for an absent element / attribute; `parameterElement` is the
attribute-name set of `Configuration/Parameters/Parameter` when present;
`paxesGroups` lists, per `Paxes` group, the `age` attribute of each `Pax`. -/
structure Doc where
  languageCode : Option String
  optionsQuota : Option String
  currency : Option String
  nationality : Option String
  startDate : Option String
  endDate : Option String
  parameterElement : Option (List String)
  paxesGroups : List (List (Option String))
deriving DecidableEq, Repr

/-- The dict `response_data` returned by `parse_xml`; the `rooms` key is
present only when the parsed room list is non-empty. -/
structure ParsedData where
  language : String
  options_quota : Int
  currency : String
  nationality : String
  start_date : Int
  end_date : Int
  ocg : String
  rooms : Option (List (List Pax))
deriving DecidableEq, Repr

/-- The `price` object of the generated response. -/
structure Price where
  minimumSellingPrice : Option ℚ
  currency : String
  net : ℚ
  selling_price : ℚ
  selling_currency : String
  markup : ℚ
  exchange_rate : ℚ
deriving DecidableEq, Repr

/-- The single response object `generate_response` serializes (the unique
id, drawn from the clock and a random suffix, is a parameter). -/
structure Response where
  id : String
  hotelCodeSupplier : String
  market : String
  price : Price
  rooms : Option (List (List Pax))
deriving DecidableEq, Repr

/-- The whitespace characters Python `int()` strips from its argument. -/
def isPySpace (c : Char) : Bool :=
  c == ' ' || c == '\t' || c == '\n' || c == '\r' || c == '\x0b' || c == '\x0c'

/-- Strip leading and trailing whitespace from a character list. -/
def stripSpaces (cs : List Char) : List Char :=
  ((cs.dropWhile isPySpace).reverse.dropWhile isPySpace).reverse

/-- Python `int(s)`: optional surrounding whitespace, optional sign, decimal
digits; anything else raises `ValueError`. -/
def pyInt (s : String) : Except PyErr Int :=
  let cs := stripSpaces s.toList
  let signDigits : Bool × List Char :=
    match cs with
    | '-' :: rest => (true, rest)
    | '+' :: rest => (false, rest)
    | rest => (false, rest)
  let ds := signDigits.2
  if !ds.isEmpty && ds.all Char.isDigit then
    let n : Nat := ds.foldl (fun acc c => acc * 10 + (c.toNat - 48)) 0
    .ok (if signDigits.1 then -(n : Int) else (n : Int))
  else
    .error (.valueError ("invalid literal for int() with base 10: " ++ s))

/-- Whether `needle` occurs at the head of `hay`. -/
def headMatches : List Char → List Char → Bool
  | [], _ => true
  | _ :: _, [] => false
  | a :: as, b :: bs => a == b && headMatches as bs

/-- Whether `needle` occurs contiguously anywhere inside `hay`; used to ask
whether an error message mentions a field name. -/
def mentionsSeq (needle : List Char) : List Char → Bool
  | [] => needle.isEmpty
  | b :: bs => headMatches needle (b :: bs) || mentionsSeq needle bs

/-- Gregorian leap-year test, as in Python's `datetime`. -/
def isLeapYear (y : Int) : Bool :=
  (y.emod 4 == 0 && y.emod 100 != 0) || y.emod 400 == 0

/-- Number of days in a month of the proleptic Gregorian calendar. -/
def daysInMonth (y m : Int) : Int :=
  if m == 2 then (if isLeapYear y then 29 else 28)
  else if m == 4 || m == 6 || m == 9 || m == 11 then 30
  else 31

/-- Day number (days since 1970-01-01) of a civil date, the standard
era-decomposition formula; agrees with Python `datetime` subtraction. -/
def daysFromCivil (y m d : Int) : Int :=
  let yy := if m ≤ 2 then y - 1 else y
  let era := Int.fdiv yy 400
  let yoe := yy - era * 400
  let mp := Int.emod (m + 9) 12
  let doy := Int.fdiv (153 * mp + 2) 5 + d - 1
  let doe := yoe * 365 + Int.fdiv yoe 4 - Int.fdiv yoe 100 + doy
  era * 146097 + doe - 719468

/-- Microseconds per day; Python `datetime` values are modelled as integer
microseconds since the epoch. -/
def usPerDay : Int := 86400000000

/-- Split a character list on a separator character, keeping empty pieces,
as `str.split("/")` does on the corresponding string. -/
def splitOnChar (c : Char) : List Char → List (List Char)
  | [] => [[]]
  | a :: as =>
    let rest := splitOnChar c as
    if a == c then [] :: rest
    else
      match rest with
      | [] => [[a]]
      | r :: rs => (a :: r) :: rs

/-- One numeric field of the `%d/%m/%Y` format: 1 to `maxLen` digits. -/
def parseDateField (cs : List Char) (maxLen : Nat) : Option Nat :=
  if !cs.isEmpty && cs.length ≤ maxLen && cs.all Char.isDigit then
    some (cs.foldl (fun acc c => acc * 10 + (c.toNat - 48)) 0)
  else none

/-- Message of the `TypeError` raised by `strptime` when handed `None`
(the result of `findtext` on an absent element). -/
def strptimeNoneMsg : String := "strptime() argument 1 must be str, not None"

/-- `datetime.strptime(s, "%d/%m/%Y")` on the text of an element: an absent
element gives `None`, on which `strptime` raises `TypeError`; a present but
non-conforming string raises `ValueError`; a valid date yields its midnight
instant (a whole multiple of `usPerDay`). -/
def strptimeDMY (s : Option String) : Except PyErr Int :=
  match s with
  | none => .error (.typeError strptimeNoneMsg)
  | some str =>
    let fmtErr : Except PyErr Int :=
      .error (.valueError ("time data '" ++ str ++ "' does not match format '%d/%m/%Y'"))
    match splitOnChar '/' str.toList with
    | [ds, ms, ys] =>
      match parseDateField ds 2, parseDateField ms 2, parseDateField ys 4 with
      | some d, some m, some y =>
        if 1 ≤ y && 1 ≤ m && m ≤ 12 && 1 ≤ d && (d : Int) ≤ daysInMonth (y : Int) (m : Int) then
          .ok (daysFromCivil (y : Int) (m : Int) (d : Int) * usPerDay)
        else fmtErr
      | _, _, _ => fmtErr
    | _ => fmtErr

/-- Message of the lead-time failure in `_validate_dates`. -/
def leadTimeMsg : String := "StartDate must be at least 2 days from today"

/-- Message of the stay-length failure in `_validate_dates`. -/
def stayMsg : String := "Stay duration must be at least 3 nights"

/-- `_validate_dates`: parse both dates, then require
`start_date < datetime.today() + timedelta(days=2)` to be false, then
`(end_date - start_date).days < 3` to be false. `now` is the instant
`datetime.today()` returns, including its time-of-day component.
`timedelta.days` is floor division by a day. -/
def validate_dates (now : Int) (startStr endStr : Option String) :
    Except PyErr (Int × Int) := do
  let s ← strptimeDMY startStr
  let e ← strptimeDMY endStr
  if s < now + 2 * usPerDay then
    .error (.valueError leadTimeMsg)
  else if Int.fdiv (e - s) usPerDay < 3 then
    .error (.valueError stayMsg)
  else
    .ok (s, e)

/-- One `Pax` element inside `_parse_rooms`:
`age = int(pax.get("age", "0"))`, then classify by the child-age cutoff. -/
def mkPax (cfg : Config) (ageAttr : Option String) : Except PyErr Pax := do
  let age ← pyInt (ageAttr.getD "0")
  .ok { type := if age ≤ cfg.childAgeLimit then "Child" else "Adult", age := age }

/-- The `pax_list` built for one `Paxes` group, one `Pax` at a time in
document order, mirroring the loop of `_parse_rooms`. -/
def buildRoom (cfg : Config) : List (Option String) → Except PyErr (List Pax)
  | [] => .ok []
  | a :: as => do
    let p ← mkPax cfg a
    let rest ← buildRoom cfg as
    .ok (p :: rest)

/-- The running `child_count` of `_parse_rooms`. -/
def childCount (room : List Pax) : Nat :=
  (room.filter (fun p => p.type == "Child")).length

/-- Message of the children-per-room failure. -/
def exceededChildrenMsg : String := "Exceeded maximum allowed children per room"

/-- Message of the guests-per-room failure. -/
def exceededGuestsMsg : String := "Exceeded maximum allowed guests per room"

/-- Message of the unaccompanied-child failure. -/
def unaccompaniedChildMsg : String :=
  "A child must have at least one accompanying adult in the same room"

/-- `_validate_room`: the three occupancy checks in source order. -/
def validate_room (cfg : Config) (room : List Pax) : Except PyErr Unit :=
  if childCount room > cfg.allowedChildCountPerRoom then
    .error (.valueError exceededChildrenMsg)
  else if room.length > cfg.allowedRoomGuestCount then
    .error (.valueError exceededGuestsMsg)
  else if 0 < childCount room ∧ room.all (fun p => p.type == "Child") then
    .error (.valueError unaccompaniedChildMsg)
  else
    .ok ()

/-- `_parse_rooms`: build and immediately validate each room, in document
order; the first failure aborts with no partial list. -/
def parse_rooms (cfg : Config) : List (List (Option String)) →
    Except PyErr (List (List Pax))
  | [] => .ok []
  | g :: gs => do
    let room ← buildRoom cfg g
    let _ ← validate_room cfg room
    let rest ← parse_rooms cfg gs
    .ok (room :: rest)

/-- `_validate_basic_fields`: membership checks in source order
(language, currency, nationality, quota), first failure raised. -/
def validate_basic_fields (cfg : Config) (language currency nationality : String)
    (optionsQuota : Int) : Except PyErr Unit :=
  if !(cfg.validLanguages.contains language) then
    .error (.valueError ("Invalid language: " ++ language))
  else if !(cfg.validCurrencies.contains currency) then
    .error (.valueError ("Invalid currency: " ++ currency))
  else if !(cfg.validNationalities.contains nationality) then
    .error (.valueError ("Invalid nationality: " ++ nationality))
  else if optionsQuota > 50 then
    .error (.valueError "optionsQuota cannot be greater than 50")
  else
    .ok ()

/-- Message raised when `Configuration/Parameters/Parameter` is absent. -/
def missingParameterMsg : String := "Missing required <Parameter> element"

/-- The `required_params` list of `parse_xml` (note the capital C of
`CompanyID` in the source). -/
def requiredParams : List String := ["password", "username", "CompanyID"]

/-- The loop over `required_params`: raise on the first attribute missing
from the `Parameter` element. -/
def checkRequiredParams (attrs : List String) : List String → Except PyErr Unit
  | [] => .ok ()
  | p :: ps =>
    if attrs.contains p then checkRequiredParams attrs ps
    else .error (.valueError ("Missing required parameter: " ++ p))

/-- The credential-block validation of `parse_xml`: the element must exist
and carry each of the three required attributes. -/
def checkCredentials (paramElement : Option (List String)) : Except PyErr Unit :=
  match paramElement with
  | none => .error (.valueError missingParameterMsg)
  | some attrs => checkRequiredParams attrs requiredParams

/-- `int(root.findtext(".//optionsQuota", "20"))`: the extraction (with
default) and integer conversion of the options quota. -/
def extractOptionsQuota (o : Option String) : Except PyErr Int :=
  pyInt (o.getD "20")

/-- `parse_xml`: extraction with defaults (the quota's `int()` conversion
happens here), then credential check, then room parsing/validation, then
basic-field validation, then date validation; the `rooms` key is set only
when the room list is non-empty. -/
def parse_xml (cfg : Config) (now : Int) (doc : Doc) : Except PyErr ParsedData := do
  let language := doc.languageCode.getD cfg.defaultLanguage
  let options_quota ← extractOptionsQuota doc.optionsQuota
  let currency := doc.currency.getD cfg.defaultCurrency
  let nationality := doc.nationality.getD cfg.defaultNationality
  let _ ← checkCredentials doc.parameterElement
  let rooms ← parse_rooms cfg doc.paxesGroups
  let _ ← validate_basic_fields cfg language currency nationality options_quota
  let dates ← validate_dates now doc.startDate doc.endDate
  .ok { language := language, options_quota := options_quota, currency := currency,
        nationality := nationality, start_date := dates.1, end_date := dates.2,
        ocg := "OCG_SECRET",
        rooms := if rooms.isEmpty then none else some rooms }

/-- Python `round(x, 2)` at the rational level: round to two decimals. -/
def round2 (x : ℚ) : ℚ := ((round (x * 100) : ℤ) : ℚ) / 100

/-- `calculate_selling_price`: net price plus markup percentage, rounded to
two decimals. -/
def calculate_selling_price (netPrice markup : ℚ) : ℚ :=
  round2 (netPrice + netPrice * (markup / 100))

/-- `get_exchange_rate`: static-table lookup with silent default 1.0. -/
def get_exchange_rate (cfg : Config) (fromCurrency toCurrency : String) : ℚ :=
  match cfg.exchangeRates.find? (fun r => r.1 == (fromCurrency, toCurrency)) with
  | some r => r.2
  | none => 1

/-- `generate_response`: assemble the response object; the selling price is
the marked-up net price times the exchange rate for (USD, request currency).
`uniqueId` abstracts the timestamp-plus-random identifier. -/
def generate_response (cfg : Config) (uniqueId : String) (pd : ParsedData) : Response :=
  let exchange_rate := get_exchange_rate cfg "USD" pd.currency
  let selling_price := calculate_selling_price cfg.netPrice cfg.markupPercentage * exchange_rate
  { id := uniqueId
    hotelCodeSupplier := "39971881"
    market := pd.nationality
    price :=
      { minimumSellingPrice := none
        currency := pd.currency
        net := cfg.netPrice
        selling_price := selling_price
        selling_currency := pd.currency
        markup := cfg.markupPercentage
        exchange_rate := exchange_rate }
    rooms := pd.rooms }

/-- `process_request`: parse and validate, then generate the response; any
exception propagates unchanged. -/
def process_request (cfg : Config) (now : Int) (uniqueId : String) (doc : Doc) :
    Except PyErr Response :=
  match parse_xml cfg now doc with
  | .ok pd => .ok (generate_response cfg uniqueId pd)
  | .error e => .error e

/-- Modelled from the spec: the repository's `constants.py` (imported by
`from constants import *`) is not among the sources. This concrete instance
follows §3 and §8 of the spec and the repository's tests: languages
en/fr/de/es and currencies EUR/USD/GBP are the ones the tests accept, the
occupancy limits (2 children, 4 guests, child-age cutoff 17) are the unique
values consistent with every test case, and the pricing constants are
representative values. -/
def cfgEx : Config :=
  { defaultLanguage := "en"
    defaultCurrency := "USD"
    defaultNationality := "US"
    validLanguages := ["en", "fr", "de", "es"]
    validCurrencies := ["EUR", "USD", "GBP"]
    validNationalities := ["US", "GB", "CA"]
    childAgeLimit := 17
    allowedChildCountPerRoom := 2
    allowedRoomGuestCount := 4
    exchangeRates := [(("USD", "EUR"), (92 : ℚ) / 100), (("USD", "GBP"), (79 : ℚ) / 100)]
    netPrice := 100
    markupPercentage := 20 }

/-- A document view of the valid request used by the repository's tests. -/
def docEx : Doc :=
  { languageCode := some "en"
    optionsQuota := some "20"
    currency := some "USD"
    nationality := some "US"
    startDate := some "25/02/2025"
    endDate := some "28/02/2025"
    parameterElement := some ["password", "username", "CompanyID"]
    paxesGroups := [[some "30", some "5"]] }

/-- A validation instant: midnight, 2025-02-20. -/
def nowEx : Int := daysFromCivil 2025 2 20 * usPerDay

/-- The record `parse_xml` produces for `docEx` at `nowEx`. -/
def pdEx : ParsedData :=
  { language := "en"
    options_quota := 20
    currency := "USD"
    nationality := "US"
    start_date := daysFromCivil 2025 2 25 * usPerDay
    end_date := daysFromCivil 2025 2 28 * usPerDay
    ocg := "OCG_SECRET"
    rooms := some [[{ type := "Adult", age := 30 }, { type := "Child", age := 5 }]] }

/-- `docEx` with the credential attribute spelled `companyID` (lower-case
c) instead of the `CompanyID` the code requires. -/
def docLowerCompany : Doc :=
  { docEx with parameterElement := some ["password", "username", "companyID"] }

/-- `docEx` with the `StartDate` element removed. -/
def docNoStart : Doc := { docEx with startDate := none }

/-- `docEx` with an invalid room (a lone four-year-old) and an invalid
nationality: two stages would fail, the room stage comes first. -/
def docBadRoomBadNat : Doc :=
  { docEx with nationality := some "XX", paxesGroups := [[some "4"]] }

/-- `docEx` with a single occupancy group containing no guest entries. -/
def docEmptyGroup : Doc := { docEx with paxesGroups := [[]] }

/-- The record `parse_xml` produces for `docEmptyGroup` at `nowEx`. -/
def pdEmptyRoom : ParsedData := { pdEx with rooms := some [[]] }

/-! ## Helper lemmas -/

theorem usPerDay_pos : (0 : Int) < usPerDay := by norm_num [usPerDay]

theorem except_bind_ok {α β : Type} (a : α) (f : α → Except PyErr β) :
    (Except.ok a).bind f = f a := rfl

theorem except_bind_error {α β : Type} (e : PyErr) (f : α → Except PyErr β) :
    (Except.error e).bind f = (Except.error e : Except PyErr β) := rfl

/-- `_validate_dates` after both date strings have parsed: the code is the
lead-time comparison followed by the stay-length comparison. -/
theorem validate_dates_eq (now : Int) (ss es : Option String) (su eu : Int)
    (hs : strptimeDMY ss = .ok su) (he : strptimeDMY es = .ok eu) :
    validate_dates now ss es =
      if su < now + 2 * usPerDay then .error (.valueError leadTimeMsg)
      else if Int.fdiv (eu - su) usPerDay < 3 then .error (.valueError stayMsg)
      else .ok (su, eu) := by
  unfold validate_dates
  rw [hs, he]
  rfl

/-- The stay-length branch of `_validate_dates` never produces the
lead-time error. -/
theorem stay_branch_ne_lead (su eu : Int) :
    (if Int.fdiv (eu - su) usPerDay < 3 then
        (.error (.valueError stayMsg) : Except PyErr (Int × Int))
      else .ok (su, eu)) ≠ .error (.valueError leadTimeMsg) := by
  split
  · intro h
    simp only [Except.error.injEq, PyErr.valueError.injEq] at h
    exact absurd h (by decide)
  · intro h
    exact Except.noConfusion h

/-- Unfolding of `mkPax`: the age conversion followed by classification. -/
theorem mkPax_def (cfg : Config) (a : Option String) :
    mkPax cfg a =
      (pyInt (a.getD "0")).bind (fun age =>
        .ok { type := if age ≤ cfg.childAgeLimit then "Child" else "Adult",
              age := age }) := rfl

/-- Unfolding of `buildRoom` on a non-empty guest list. -/
theorem buildRoom_cons (cfg : Config) (a : Option String) (as : List (Option String)) :
    buildRoom cfg (a :: as) =
      (mkPax cfg a).bind (fun p =>
        (buildRoom cfg as).bind (fun rest => .ok (p :: rest))) := rfl

/-- Unfolding of `_parse_rooms` on a non-empty group list: build the first
room, validate it, then recurse. -/
theorem parse_rooms_cons (cfg : Config) (g : List (Option String))
    (gs : List (List (Option String))) :
    parse_rooms cfg (g :: gs) =
      (buildRoom cfg g).bind (fun room =>
        (validate_room cfg room).bind (fun _ =>
          (parse_rooms cfg gs).bind (fun rest => .ok (room :: rest)))) := rfl

/-- Unfolding of `parse_xml` into its stage sequence: quota extraction,
credential check, room parsing, basic-field validation, date validation. -/
theorem parse_xml_def (cfg : Config) (now : Int) (doc : Doc) :
    parse_xml cfg now doc =
      (extractOptionsQuota doc.optionsQuota).bind (fun options_quota =>
        (checkCredentials doc.parameterElement).bind (fun _ =>
          (parse_rooms cfg doc.paxesGroups).bind (fun rooms =>
            (validate_basic_fields cfg (doc.languageCode.getD cfg.defaultLanguage)
                (doc.currency.getD cfg.defaultCurrency)
                (doc.nationality.getD cfg.defaultNationality) options_quota).bind (fun _ =>
              (validate_dates now doc.startDate doc.endDate).bind (fun dates =>
                .ok { language := doc.languageCode.getD cfg.defaultLanguage
                      options_quota := options_quota
                      currency := doc.currency.getD cfg.defaultCurrency
                      nationality := doc.nationality.getD cfg.defaultNationality
                      start_date := dates.1
                      end_date := dates.2
                      ocg := "OCG_SECRET"
                      rooms := if rooms.isEmpty then none else some rooms }))))) := rfl

theorem parse_xml_quota_error (cfg : Config) (now : Int) (doc : Doc) (e : PyErr)
    (hq : extractOptionsQuota doc.optionsQuota = .error e) :
    parse_xml cfg now doc = .error e := by
  rw [parse_xml_def, hq, except_bind_error]

theorem parse_xml_cred_error (cfg : Config) (now : Int) (doc : Doc) (q : Int) (e : PyErr)
    (hq : extractOptionsQuota doc.optionsQuota = .ok q)
    (hc : checkCredentials doc.parameterElement = .error e) :
    parse_xml cfg now doc = .error e := by
  rw [parse_xml_def, hq, except_bind_ok, hc, except_bind_error]

theorem parse_xml_rooms_error (cfg : Config) (now : Int) (doc : Doc) (q : Int) (e : PyErr)
    (hq : extractOptionsQuota doc.optionsQuota = .ok q)
    (hc : checkCredentials doc.parameterElement = .ok ())
    (hr : parse_rooms cfg doc.paxesGroups = .error e) :
    parse_xml cfg now doc = .error e := by
  rw [parse_xml_def, hq, except_bind_ok, hc, except_bind_ok, hr, except_bind_error]

theorem parse_xml_basic_error (cfg : Config) (now : Int) (doc : Doc) (q : Int)
    (rooms : List (List Pax)) (e : PyErr)
    (hq : extractOptionsQuota doc.optionsQuota = .ok q)
    (hc : checkCredentials doc.parameterElement = .ok ())
    (hr : parse_rooms cfg doc.paxesGroups = .ok rooms)
    (hv : validate_basic_fields cfg (doc.languageCode.getD cfg.defaultLanguage)
        (doc.currency.getD cfg.defaultCurrency)
        (doc.nationality.getD cfg.defaultNationality) q = .error e) :
    parse_xml cfg now doc = .error e := by
  rw [parse_xml_def, hq, except_bind_ok, hc, except_bind_ok, hr, except_bind_ok, hv,
    except_bind_error]

theorem parse_xml_dates_error (cfg : Config) (now : Int) (doc : Doc) (q : Int)
    (rooms : List (List Pax)) (e : PyErr)
    (hq : extractOptionsQuota doc.optionsQuota = .ok q)
    (hc : checkCredentials doc.parameterElement = .ok ())
    (hr : parse_rooms cfg doc.paxesGroups = .ok rooms)
    (hv : validate_basic_fields cfg (doc.languageCode.getD cfg.defaultLanguage)
        (doc.currency.getD cfg.defaultCurrency)
        (doc.nationality.getD cfg.defaultNationality) q = .ok ())
    (hd : validate_dates now doc.startDate doc.endDate = .error e) :
    parse_xml cfg now doc = .error e := by
  rw [parse_xml_def, hq, except_bind_ok, hc, except_bind_ok, hr, except_bind_ok, hv,
    except_bind_ok, hd, except_bind_error]

theorem parse_xml_all_ok (cfg : Config) (now : Int) (doc : Doc) (q : Int)
    (rooms : List (List Pax)) (dates : Int × Int)
    (hq : extractOptionsQuota doc.optionsQuota = .ok q)
    (hc : checkCredentials doc.parameterElement = .ok ())
    (hr : parse_rooms cfg doc.paxesGroups = .ok rooms)
    (hv : validate_basic_fields cfg (doc.languageCode.getD cfg.defaultLanguage)
        (doc.currency.getD cfg.defaultCurrency)
        (doc.nationality.getD cfg.defaultNationality) q = .ok ())
    (hd : validate_dates now doc.startDate doc.endDate = .ok dates) :
    parse_xml cfg now doc =
      .ok { language := doc.languageCode.getD cfg.defaultLanguage
            options_quota := q
            currency := doc.currency.getD cfg.defaultCurrency
            nationality := doc.nationality.getD cfg.defaultNationality
            start_date := dates.1
            end_date := dates.2
            ocg := "OCG_SECRET"
            rooms := if rooms.isEmpty then none else some rooms } := by
  rw [parse_xml_def, hq, except_bind_ok, hc, except_bind_ok, hr, except_bind_ok, hv,
    except_bind_ok, hd, except_bind_ok]

/-- Inversion: a successful `parse_xml` means every stage succeeded and the
record is assembled from the stage results. -/
theorem parse_xml_ok_inv (cfg : Config) (now : Int) (doc : Doc) (pd : ParsedData)
    (h : parse_xml cfg now doc = .ok pd) :
    ∃ q rooms dates,
      extractOptionsQuota doc.optionsQuota = .ok q ∧
      checkCredentials doc.parameterElement = .ok () ∧
      parse_rooms cfg doc.paxesGroups = .ok rooms ∧
      validate_basic_fields cfg (doc.languageCode.getD cfg.defaultLanguage)
        (doc.currency.getD cfg.defaultCurrency)
        (doc.nationality.getD cfg.defaultNationality) q = .ok () ∧
      validate_dates now doc.startDate doc.endDate = .ok dates ∧
      pd = { language := doc.languageCode.getD cfg.defaultLanguage
             options_quota := q
             currency := doc.currency.getD cfg.defaultCurrency
             nationality := doc.nationality.getD cfg.defaultNationality
             start_date := dates.1
             end_date := dates.2
             ocg := "OCG_SECRET"
             rooms := if rooms.isEmpty then none else some rooms } := by
  rw [parse_xml_def] at h
  cases hq : extractOptionsQuota doc.optionsQuota with
  | error e => rw [hq, except_bind_error] at h; exact Except.noConfusion h
  | ok q =>
    rw [hq, except_bind_ok] at h
    cases hc : checkCredentials doc.parameterElement with
    | error e => rw [hc, except_bind_error] at h; exact Except.noConfusion h
    | ok u =>
      cases u
      rw [hc, except_bind_ok] at h
      cases hr : parse_rooms cfg doc.paxesGroups with
      | error e => rw [hr, except_bind_error] at h; exact Except.noConfusion h
      | ok rooms =>
        rw [hr, except_bind_ok] at h
        cases hv : validate_basic_fields cfg (doc.languageCode.getD cfg.defaultLanguage)
            (doc.currency.getD cfg.defaultCurrency)
            (doc.nationality.getD cfg.defaultNationality) q with
        | error e => rw [hv, except_bind_error] at h; exact Except.noConfusion h
        | ok u2 =>
          cases u2
          rw [hv, except_bind_ok] at h
          cases hd : validate_dates now doc.startDate doc.endDate with
          | error e => rw [hd, except_bind_error] at h; exact Except.noConfusion h
          | ok dates =>
            rw [hd, except_bind_ok] at h
            injection h with h
            exact ⟨q, rooms, dates, rfl, rfl, rfl, hv, rfl, h.symm⟩

/-- A successful `_parse_rooms` yields exactly one room per `Paxes` group. -/
theorem parse_rooms_length (cfg : Config) (groups : List (List (Option String)))
    (rl : List (List Pax)) (h : parse_rooms cfg groups = .ok rl) :
    rl.length = groups.length := by
  induction groups generalizing rl with
  | nil =>
    injection h with h
    subst h
    rfl
  | cons g gs ih =>
    rw [parse_rooms_cons] at h
    cases hb : buildRoom cfg g with
    | error e => rw [hb, except_bind_error] at h; exact Except.noConfusion h
    | ok room =>
      rw [hb, except_bind_ok] at h
      cases hv : validate_room cfg room with
      | error e => rw [hv, except_bind_error] at h; exact Except.noConfusion h
      | ok u =>
        cases u
        rw [hv, except_bind_ok] at h
        cases hrest : parse_rooms cfg gs with
        | error e => rw [hrest, except_bind_error] at h; exact Except.noConfusion h
        | ok rest =>
          rw [hrest, except_bind_ok] at h
          injection h with h
          subst h
          simp [ih rest hrest]

/-! ## C1: lead-time check -/

/-- Claim C1 counterexample: the claim says a start date equal to the
current date plus 2 days is accepted by the lead-time check and that the
comparison uses calendar dates with no time-of-day component.  In the code
`datetime.today()` carries the current time of day: at one microsecond past
midnight of 2025-01-01, the request for start 2025-01-03 (current date plus
exactly 2 days; end 2025-01-06, so the stay length is fine) is rejected
with the lead-time error. -/
theorem C1_lead_time_counterexample :
    (0 : Int) ≤ 1 ∧ (1 : Int) < usPerDay ∧
    strptimeDMY (some "03/01/2025") = .ok ((daysFromCivil 2025 1 1 + 2) * usPerDay) ∧
    strptimeDMY (some "06/01/2025") = .ok ((daysFromCivil 2025 1 1 + 5) * usPerDay) ∧
    validate_dates (daysFromCivil 2025 1 1 * usPerDay + 1)
        (some "03/01/2025") (some "06/01/2025") =
      .error (.valueError leadTimeMsg) := by decide

/-- Claim C1, amended: for every request whose dates parse, with the
validation instant written as `nowDay * usPerDay + τ` (calendar day plus
time of day `0 ≤ τ < usPerDay`): a start date equal to the current date is
rejected with the lead-time error; a start date at the current date plus 3
days or later passes the lead-time check; and a start date at the current
date plus exactly 2 days passes the lead-time check if and only if the
validation instant is exactly midnight (`τ = 0`) — the code compares full
`datetime` instants, not calendar dates, so the spec's 2-day inclusive
boundary holds only at midnight. -/
theorem C1_lead_time_amended (nowDay τ sd ed : Int) (ss es : String)
    (hτ0 : 0 ≤ τ) (hτ1 : τ < usPerDay)
    (hs : strptimeDMY (some ss) = .ok (sd * usPerDay))
    (he : strptimeDMY (some es) = .ok (ed * usPerDay)) :
    (sd = nowDay →
      validate_dates (nowDay * usPerDay + τ) (some ss) (some es) =
        .error (.valueError leadTimeMsg)) ∧
    (nowDay + 3 ≤ sd →
      validate_dates (nowDay * usPerDay + τ) (some ss) (some es) ≠
        .error (.valueError leadTimeMsg)) ∧
    (sd = nowDay + 2 →
      (validate_dates (nowDay * usPerDay + τ) (some ss) (some es) ≠
          .error (.valueError leadTimeMsg) ↔ τ = 0)) := by
  have hD := usPerDay_pos
  rw [validate_dates_eq _ _ _ _ _ hs he]
  refine ⟨?_, ?_, ?_⟩
  · rintro rfl
    rw [if_pos (by linarith)]
  · intro h3
    have hmul := mul_le_mul_of_nonneg_right h3 hD.le
    rw [if_neg (by nlinarith)]
    exact stay_branch_ne_lead _ _
  · rintro rfl
    constructor
    · intro hne
      by_contra hτ
      have hpos : 0 < τ := lt_of_le_of_ne hτ0 (Ne.symm hτ)
      exact hne (by rw [if_pos (by nlinarith)])
    · rintro rfl
      rw [if_neg (by nlinarith)]
      exact stay_branch_ne_lead _ _

/-- Witness for C1: at one microsecond past midnight of 2025-01-01, a start
date of 2025-01-01 (equal to the current date) is rejected with the
lead-time error. -/
theorem C1_lead_time_amended_witness :
    validate_dates (daysFromCivil 2025 1 1 * usPerDay + 1)
        (some "01/01/2025") (some "04/01/2025") =
      .error (.valueError leadTimeMsg) :=
  (C1_lead_time_amended (daysFromCivil 2025 1 1) 1 (daysFromCivil 2025 1 1)
    (daysFromCivil 2025 1 4) "01/01/2025" "04/01/2025" (by decide) (by decide)
    (by decide) (by decide)).1 rfl

/-! ## C4: stay-length check -/

/-- Claim C4: for every request whose dates parse and whose start date
passes the lead-time check, the request is rejected with the stay-length
error exactly when the end date minus the start date is fewer than 3 whole
days, and accepted when the difference is exactly 3 days; and the lead-time
check runs first, so when it fails its error is the one raised. -/
theorem C4_stay_length (now sd ed : Int) (ss es : String)
    (hs : strptimeDMY (some ss) = .ok (sd * usPerDay))
    (he : strptimeDMY (some es) = .ok (ed * usPerDay)) :
    (¬ sd * usPerDay < now + 2 * usPerDay →
      ((validate_dates now (some ss) (some es) = .error (.valueError stayMsg) ↔
          ed - sd < 3) ∧
       (ed - sd = 3 →
          validate_dates now (some ss) (some es) =
            .ok (sd * usPerDay, ed * usPerDay)))) ∧
    (sd * usPerDay < now + 2 * usPerDay →
      validate_dates now (some ss) (some es) = .error (.valueError leadTimeMsg)) := by
  have hD := usPerDay_pos
  have hfd : Int.fdiv (ed * usPerDay - sd * usPerDay) usPerDay = ed - sd := by
    rw [← sub_mul]
    exact Int.mul_fdiv_cancel _ hD.ne'
  rw [validate_dates_eq _ _ _ _ _ hs he]
  constructor
  · intro hlead
    rw [if_neg hlead, hfd]
    refine ⟨⟨fun h => ?_, fun h => by rw [if_pos h]⟩, fun h3 => ?_⟩
    · by_contra hc
      rw [if_neg hc] at h
      exact Except.noConfusion h
    · rw [if_neg (by omega)]
  · intro hlead
    rw [if_pos hlead]

/-- Witness for C4: validated at midnight 2025-02-20, the request for
2025-02-25 → 2025-02-28 (stay of exactly 3 days) is accepted. -/
theorem C4_stay_length_witness :
    validate_dates nowEx (some "25/02/2025") (some "28/02/2025") =
      .ok (daysFromCivil 2025 2 25 * usPerDay, daysFromCivil 2025 2 28 * usPerDay) :=
  ((C4_stay_length nowEx (daysFromCivil 2025 2 25) (daysFromCivil 2025 2 28)
      "25/02/2025" "28/02/2025" (by decide) (by decide)).1 (by decide)).2 (by decide)

/-! ## C2: occupancy validation -/

/-- Claim C2: `_validate_room` checks child count, then total guest count,
then unaccompanied child, in that order; the first two failures carry the
exact messages, the third fires on a room with at least one Child and no
Adult (every built guest is a Child or an Adult); and a room whose
validation fails aborts `_parse_rooms` with that error, so no room list is
returned. -/
theorem C2_occupancy (cfg : Config) (room : List Pax) (g : List (Option String))
    (gs : List (List (Option String))) (e : PyErr) :
    (childCount room > cfg.allowedChildCountPerRoom →
      validate_room cfg room = .error (.valueError "Exceeded maximum allowed children per room")) ∧
    (childCount room ≤ cfg.allowedChildCountPerRoom →
      room.length > cfg.allowedRoomGuestCount →
      validate_room cfg room = .error (.valueError "Exceeded maximum allowed guests per room")) ∧
    (childCount room ≤ cfg.allowedChildCountPerRoom →
      room.length ≤ cfg.allowedRoomGuestCount →
      (∃ p ∈ room, p.type = "Child") →
      (∀ p ∈ room, p.type = "Child" ∨ p.type = "Adult") →
      (∀ p ∈ room, p.type ≠ "Adult") →
      validate_room cfg room = .error (.valueError unaccompaniedChildMsg)) ∧
    (buildRoom cfg g = .ok room → validate_room cfg room = .error e →
      parse_rooms cfg (g :: gs) = .error e) := by
  refine ⟨?_, ?_, ?_, ?_⟩
  · intro h1
    unfold validate_room
    rw [if_pos h1]
    rfl
  · intro h1 h2
    unfold validate_room
    rw [if_neg (not_lt.mpr h1), if_pos h2]
    rfl
  · intro h1 h2 hex htypes hnoadult
    unfold validate_room
    rw [if_neg (not_lt.mpr h1), if_neg (not_lt.mpr h2), if_pos]
    constructor
    · obtain ⟨p, hp, hpc⟩ := hex
      have hmem : p ∈ room.filter (fun x => x.type == "Child") :=
        List.mem_filter.mpr ⟨hp, by simp [hpc]⟩
      exact List.length_pos_of_mem hmem
    · rw [List.all_eq_true]
      intro x hx
      rcases htypes x hx with hc | ha
      · simp [hc]
      · exact absurd ha (hnoadult x hx)
  · intro hb hv
    rw [parse_rooms_cons, hb, except_bind_ok, hv, except_bind_error]

/-- Witness for C2: with the modelled limits, the room of ages
[3, 4, 5, 25] (three children) is rejected with the exact children
message. -/
theorem C2_occupancy_witness :
    validate_room cfgEx
        [{ type := "Child", age := 3 }, { type := "Child", age := 4 },
         { type := "Child", age := 5 }, { type := "Adult", age := 25 }] =
      .error (.valueError "Exceeded maximum allowed children per room") :=
  (C2_occupancy cfgEx
      [{ type := "Child", age := 3 }, { type := "Child", age := 4 },
       { type := "Child", age := 5 }, { type := "Adult", age := 25 }]
      [] [] (.valueError "x")).1 (by decide)

/-- Every guest built by `_parse_rooms` comes from `mkPax`: its type is
derived from its age via the child-age cutoff. -/
theorem buildRoom_guests (cfg : Config) (g : List (Option String)) (room : List Pax)
    (h : buildRoom cfg g = .ok room) :
    ∀ p ∈ room, ∃ a : Int,
      p = { type := if a ≤ cfg.childAgeLimit then "Child" else "Adult", age := a } := by
  induction g generalizing room with
  | nil =>
    injection h with h
    subst h
    intro p hp
    exact absurd hp (List.not_mem_nil p)
  | cons x xs ih =>
    rw [buildRoom_cons] at h
    cases hm : mkPax cfg x with
    | error e => rw [hm, except_bind_error] at h; exact Except.noConfusion h
    | ok p0 =>
      rw [hm, except_bind_ok] at h
      cases hrest : buildRoom cfg xs with
      | error e => rw [hrest, except_bind_error] at h; exact Except.noConfusion h
      | ok rest =>
        rw [hrest, except_bind_ok] at h
        injection h with h
        subst h
        intro p hp
        rcases List.mem_cons.mp hp with hp0 | hprest
        · subst hp0
          rw [mkPax_def] at hm
          cases hpy : pyInt (x.getD "0") with
          | error e => rw [hpy, except_bind_error] at hm; exact Except.noConfusion hm
          | ok a =>
            rw [hpy, except_bind_ok] at hm
            injection hm with hm
            exact ⟨a, hm.symm⟩
        · exact ih rest hrest p hprest

/-- The classification facts that follow from the `mkPax` shape. -/
theorem pax_shape_props (cfg : Config) (p : Pax) (a : Int)
    (h : p = { type := if a ≤ cfg.childAgeLimit then "Child" else "Adult", age := a }) :
    (p.type = "Child" ↔ p.age ≤ cfg.childAgeLimit) ∧
    (p.type = "Child" ∨ p.type = "Adult") := by
  subst h
  by_cases hc : a ≤ cfg.childAgeLimit
  · rw [if_pos hc]
    exact ⟨⟨fun _ => hc, fun _ => rfl⟩, Or.inl rfl⟩
  · rw [if_neg hc]
    exact ⟨⟨fun hh => absurd (show ("Adult" : String) = "Child" from hh) (by decide),
      fun hh => absurd hh hc⟩, Or.inr rfl⟩

/-! ## C3: basic-field validation -/

/-- A successful `_validate_basic_fields` implies the quota is within the
maximum. -/
theorem validate_basic_fields_ok_quota (cfg : Config) (l c n : String) (q : Int)
    (h : validate_basic_fields cfg l c n q = .ok ()) : q ≤ 50 := by
  unfold validate_basic_fields at h
  split at h
  · exact Except.noConfusion h
  · split at h
    · exact Except.noConfusion h
    · split at h
      · exact Except.noConfusion h
      · split at h
        · exact Except.noConfusion h
        · next h4 => exact not_lt.mp h4

/-- Claim C3: `_validate_basic_fields` runs the membership checks in the
order language, currency, nationality, quota, and the first failure is
raised while later checks are not reached; an invalid nationality carries
the exact message `Invalid nationality: <value>`; an absent `optionsQuota`
extracts as 20; and a successful parse passes the extracted quota through
unchanged, at most 50. -/
theorem C3_basic_fields (cfg : Config) (now : Int) (language currency nationality : String)
    (q : Int) (doc : Doc) (pd : ParsedData) :
    (¬ cfg.validLanguages.contains language →
      validate_basic_fields cfg language currency nationality q =
        .error (.valueError ("Invalid language: " ++ language))) ∧
    (cfg.validLanguages.contains language →
      ¬ cfg.validCurrencies.contains currency →
      validate_basic_fields cfg language currency nationality q =
        .error (.valueError ("Invalid currency: " ++ currency))) ∧
    (cfg.validLanguages.contains language →
      cfg.validCurrencies.contains currency →
      ¬ cfg.validNationalities.contains nationality →
      validate_basic_fields cfg language currency nationality q =
        .error (.valueError ("Invalid nationality: " ++ nationality))) ∧
    (cfg.validLanguages.contains language →
      cfg.validCurrencies.contains currency →
      cfg.validNationalities.contains nationality →
      q > 50 →
      validate_basic_fields cfg language currency nationality q =
        .error (.valueError "optionsQuota cannot be greater than 50")) ∧
    (cfg.validLanguages.contains language →
      cfg.validCurrencies.contains currency →
      cfg.validNationalities.contains nationality →
      q ≤ 50 →
      validate_basic_fields cfg language currency nationality q = .ok ()) ∧
    (extractOptionsQuota none = .ok 20) ∧
    (parse_xml cfg now doc = .ok pd →
      extractOptionsQuota doc.optionsQuota = .ok pd.options_quota ∧
      pd.options_quota ≤ 50) := by
  refine ⟨?_, ?_, ?_, ?_, ?_, by decide, ?_⟩
  · intro h1
    unfold validate_basic_fields
    rw [Bool.eq_false_iff.mpr h1]
    rfl
  · intro h1 h2
    unfold validate_basic_fields
    rw [h1, Bool.eq_false_iff.mpr h2]
    rfl
  · intro h1 h2 h3
    unfold validate_basic_fields
    rw [h1, h2, Bool.eq_false_iff.mpr h3]
    rfl
  · intro h1 h2 h3 h4
    unfold validate_basic_fields
    rw [h1, h2, h3]
    show (if q > 50 then _ else _) = _
    rw [if_pos h4]
  · intro h1 h2 h3 h4
    unfold validate_basic_fields
    rw [h1, h2, h3]
    show (if q > 50 then _ else _) = _
    rw [if_neg (not_lt.mpr h4)]
  · intro h
    obtain ⟨q', rooms, dates, hq, hc, hr, hv, hd, hpd⟩ := parse_xml_ok_inv cfg now doc pd h
    subst hpd
    exact ⟨hq, validate_basic_fields_ok_quota _ _ _ _ _ hv⟩

/-- Witness for C3: nationality "XX" is rejected with the exact message
`Invalid nationality: XX` while the quota check is never reached. -/
theorem C3_basic_fields_witness :
    validate_basic_fields cfgEx "en" "USD" "XX" 20 =
      .error (.valueError ("Invalid nationality: " ++ "XX")) :=
  (C3_basic_fields cfgEx 0 "en" "USD" "XX" 20 docEx
      { language := "en", options_quota := 20, currency := "USD", nationality := "US",
        start_date := 0, end_date := 0, ocg := "OCG_SECRET",
        rooms := none }).2.2.1 (by decide) (by decide) (by decide)

/-! ## C5: pricing -/

/-- Claim C5: for every successful request, the selling price of the
response is `round(net + net * markup / 100, 2)` times the exchange rate
looked up for the pair (reference currency "USD", request currency), and a
pair absent from the static table silently yields rate 1. -/
theorem C5_pricing (cfg : Config) (now : Int) (uid : String) (doc : Doc) (pd : ParsedData)
    (c : String) (h : parse_xml cfg now doc = .ok pd) :
    process_request cfg now uid doc = .ok (generate_response cfg uid pd) ∧
    (generate_response cfg uid pd).price.selling_price =
      round2 (cfg.netPrice + cfg.netPrice * (cfg.markupPercentage / 100)) *
        get_exchange_rate cfg "USD" pd.currency ∧
    (generate_response cfg uid pd).price.exchange_rate =
      get_exchange_rate cfg "USD" pd.currency ∧
    (generate_response cfg uid pd).price.selling_currency = pd.currency ∧
    (generate_response cfg uid pd).price.markup = cfg.markupPercentage ∧
    ((∀ r ∈ cfg.exchangeRates, r.1 ≠ ("USD", c)) → get_exchange_rate cfg "USD" c = 1) := by
  refine ⟨?_, rfl, rfl, rfl, rfl, ?_⟩
  · unfold process_request
    rw [h]
  · intro hall
    unfold get_exchange_rate
    have hnone : cfg.exchangeRates.find? (fun r => r.1 == ("USD", c)) = none := by
      rw [List.find?_eq_none]
      intro x hx
      simpa using hall x hx
    rw [hnone]

/-- Witness for C5: the valid test request is priced, and the absent pair
(USD, JPY) falls back to rate 1. -/
theorem C5_pricing_witness :
    process_request cfgEx nowEx "A#20250220120000-ab12cd34" docEx =
      .ok (generate_response cfgEx "A#20250220120000-ab12cd34" pdEx) ∧
    get_exchange_rate cfgEx "USD" "JPY" = 1 :=
  ⟨(C5_pricing cfgEx nowEx "A#20250220120000-ab12cd34" docEx pdEx "JPY" (by decide)).1,
   (C5_pricing cfgEx nowEx "A#20250220120000-ab12cd34" docEx pdEx "JPY"
      (by decide)).2.2.2.2.2 (by decide)⟩

/-! ## C6: credential block -/

/-- Unfolding of the loop over `required_params`. -/
theorem checkRequiredParams_cons (attrs : List String) (p : String) (ps : List String) :
    checkRequiredParams attrs (p :: ps) =
      if attrs.contains p then checkRequiredParams attrs ps
      else .error (.valueError ("Missing required parameter: " ++ p)) := rfl

/-- Claim C6 counterexample: the claim names the three required attributes
password, username, companyID.  A document whose `Parameter` element
carries exactly those three attributes is nevertheless rejected: the code
requires `CompanyID` with a capital C, and the error it raises names
`CompanyID`, not the `companyID` that is present. -/
theorem C6_credentials_counterexample :
    docLowerCompany.parameterElement = some ["password", "username", "companyID"] ∧
    parse_xml cfgEx nowEx docLowerCompany =
      .error (.valueError "Missing required parameter: CompanyID") := by decide

/-- Claim C6, amended: an absent `Configuration/Parameters/Parameter`
element fails with the missing-parameter error; a present element missing
one of the three attributes password, username, `CompanyID` (capital C —
not the claim's `companyID`) fails naming the first missing attribute in
that fixed order; with all three present the credential check passes.
(The quota extraction, which precedes the credential check, is assumed to
succeed.) -/
theorem C6_credentials_amended (cfg : Config) (now : Int) (doc : Doc) (q : Int)
    (attrs : List String)
    (hq : extractOptionsQuota doc.optionsQuota = .ok q) :
    (doc.parameterElement = none →
      parse_xml cfg now doc = .error (.valueError missingParameterMsg)) ∧
    (doc.parameterElement = some attrs → ¬ attrs.contains "password" →
      parse_xml cfg now doc =
        .error (.valueError ("Missing required parameter: " ++ "password"))) ∧
    (doc.parameterElement = some attrs → attrs.contains "password" →
      ¬ attrs.contains "username" →
      parse_xml cfg now doc =
        .error (.valueError ("Missing required parameter: " ++ "username"))) ∧
    (doc.parameterElement = some attrs → attrs.contains "password" →
      attrs.contains "username" → ¬ attrs.contains "CompanyID" →
      parse_xml cfg now doc =
        .error (.valueError ("Missing required parameter: " ++ "CompanyID"))) ∧
    (attrs.contains "password" → attrs.contains "username" →
      attrs.contains "CompanyID" →
      checkRequiredParams attrs requiredParams = .ok ()) := by
  refine ⟨?_, ?_, ?_, ?_, ?_⟩
  · intro hpe
    refine parse_xml_cred_error cfg now doc q _ hq ?_
    rw [hpe]
    rfl
  · intro hpe hp
    refine parse_xml_cred_error cfg now doc q _ hq ?_
    rw [hpe]
    show checkRequiredParams attrs requiredParams = _
    show checkRequiredParams attrs ("password" :: "username" :: "CompanyID" :: []) = _
    rw [checkRequiredParams_cons, if_neg hp]
  · intro hpe hp hu
    refine parse_xml_cred_error cfg now doc q _ hq ?_
    rw [hpe]
    show checkRequiredParams attrs ("password" :: "username" :: "CompanyID" :: []) = _
    rw [checkRequiredParams_cons, if_pos hp, checkRequiredParams_cons, if_neg hu]
  · intro hpe hp hu hc
    refine parse_xml_cred_error cfg now doc q _ hq ?_
    rw [hpe]
    show checkRequiredParams attrs ("password" :: "username" :: "CompanyID" :: []) = _
    rw [checkRequiredParams_cons, if_pos hp, checkRequiredParams_cons, if_pos hu,
      checkRequiredParams_cons, if_neg hc]
  · intro hp hu hc
    show checkRequiredParams attrs ("password" :: "username" :: "CompanyID" :: []) = _
    rw [checkRequiredParams_cons, if_pos hp, checkRequiredParams_cons, if_pos hu,
      checkRequiredParams_cons, if_pos hc]
    rfl

/-- Witness for C6: with password, username and `CompanyID` all present the
credential check passes. -/
theorem C6_credentials_amended_witness :
    checkRequiredParams ["password", "username", "CompanyID"] requiredParams = .ok () :=
  (C6_credentials_amended cfgEx nowEx docEx 20 ["password", "username", "CompanyID"]
      (by decide)).2.2.2.2 (by decide) (by decide) (by decide)

/-! ## C7: required dates -/

/-- Claim C7 counterexample: the claim says a document without a
`StartDate` element is rejected with a missing-field error naming the
absent field.  In the code `findtext` returns `None` and `strptime` raises
a `TypeError` whose message does not mention `StartDate` at all (and the
earlier stages run first, so the error only surfaces once date validation
is reached). -/
theorem C7_missing_dates_counterexample :
    docNoStart.startDate = none ∧
    parse_xml cfgEx nowEx docNoStart = .error (.typeError strptimeNoneMsg) ∧
    mentionsSeq "StartDate".toList strptimeNoneMsg.toList = false := by decide

/-- Claim C7, amended: a request whose `StartDate` (or, when the start date
parses, whose `EndDate`) is absent is rejected by date validation, but with
the `TypeError` that `strptime` raises on `None` — not a missing-field
error — and its message names neither `StartDate` nor `EndDate`. -/
theorem C7_missing_dates_amended (now u : Int) (ss es : Option String) :
    (ss = none → validate_dates now ss es = .error (.typeError strptimeNoneMsg)) ∧
    (es = none → strptimeDMY ss = .ok u →
      validate_dates now ss es = .error (.typeError strptimeNoneMsg)) ∧
    mentionsSeq "StartDate".toList strptimeNoneMsg.toList = false ∧
    mentionsSeq "EndDate".toList strptimeNoneMsg.toList = false := by
  refine ⟨?_, ?_, by decide, by decide⟩
  · rintro rfl
    rfl
  · rintro rfl hok
    unfold validate_dates
    rw [hok]
    rfl

/-- Witness for C7: an absent start date yields the `TypeError` from
`strptime`. -/
theorem C7_missing_dates_amended_witness :
    validate_dates nowEx none (some "28/02/2025") = .error (.typeError strptimeNoneMsg) :=
  (C7_missing_dates_amended nowEx 0 none (some "28/02/2025")).1 rfl

/-! ## C8: pipeline ordering and atomicity -/

/-- Claim C8: the stages run in the fixed order extraction (including the
quota conversion), credential check, room extraction-validation,
basic-field validation, date validation, pricing; the first failing stage's
error is the result even when a later stage would also fail, a success
yields exactly the assembled record, and `process_request` propagates a
parse failure unchanged with no partial output. -/
theorem C8_pipeline (cfg : Config) (now : Int) (uid : String) (doc : Doc) (e : PyErr)
    (q : Int) (rooms : List (List Pax)) (dates : Int × Int) (pd : ParsedData) :
    (extractOptionsQuota doc.optionsQuota = .error e →
      parse_xml cfg now doc = .error e) ∧
    (extractOptionsQuota doc.optionsQuota = .ok q →
      checkCredentials doc.parameterElement = .error e →
      parse_xml cfg now doc = .error e) ∧
    (extractOptionsQuota doc.optionsQuota = .ok q →
      checkCredentials doc.parameterElement = .ok () →
      parse_rooms cfg doc.paxesGroups = .error e →
      parse_xml cfg now doc = .error e) ∧
    (extractOptionsQuota doc.optionsQuota = .ok q →
      checkCredentials doc.parameterElement = .ok () →
      parse_rooms cfg doc.paxesGroups = .ok rooms →
      validate_basic_fields cfg (doc.languageCode.getD cfg.defaultLanguage)
        (doc.currency.getD cfg.defaultCurrency)
        (doc.nationality.getD cfg.defaultNationality) q = .error e →
      parse_xml cfg now doc = .error e) ∧
    (extractOptionsQuota doc.optionsQuota = .ok q →
      checkCredentials doc.parameterElement = .ok () →
      parse_rooms cfg doc.paxesGroups = .ok rooms →
      validate_basic_fields cfg (doc.languageCode.getD cfg.defaultLanguage)
        (doc.currency.getD cfg.defaultCurrency)
        (doc.nationality.getD cfg.defaultNationality) q = .ok () →
      validate_dates now doc.startDate doc.endDate = .error e →
      parse_xml cfg now doc = .error e) ∧
    (extractOptionsQuota doc.optionsQuota = .ok q →
      checkCredentials doc.parameterElement = .ok () →
      parse_rooms cfg doc.paxesGroups = .ok rooms →
      validate_basic_fields cfg (doc.languageCode.getD cfg.defaultLanguage)
        (doc.currency.getD cfg.defaultCurrency)
        (doc.nationality.getD cfg.defaultNationality) q = .ok () →
      validate_dates now doc.startDate doc.endDate = .ok dates →
      parse_xml cfg now doc =
        .ok { language := doc.languageCode.getD cfg.defaultLanguage
              options_quota := q
              currency := doc.currency.getD cfg.defaultCurrency
              nationality := doc.nationality.getD cfg.defaultNationality
              start_date := dates.1
              end_date := dates.2
              ocg := "OCG_SECRET"
              rooms := if rooms.isEmpty then none else some rooms }) ∧
    (parse_xml cfg now doc = .error e →
      process_request cfg now uid doc = .error e) ∧
    (parse_xml cfg now doc = .ok pd →
      process_request cfg now uid doc = .ok (generate_response cfg uid pd)) := by
  refine ⟨parse_xml_quota_error cfg now doc e,
    parse_xml_cred_error cfg now doc q e,
    parse_xml_rooms_error cfg now doc q e,
    parse_xml_basic_error cfg now doc q rooms e,
    parse_xml_dates_error cfg now doc q rooms e,
    parse_xml_all_ok cfg now doc q rooms dates, ?_, ?_⟩
  · intro h
    unfold process_request
    rw [h]
  · intro h
    unfold process_request
    rw [h]

/-- Witness for C8: with both an invalid room and an invalid nationality,
the earlier room stage's error is the one surfaced. -/
theorem C8_pipeline_witness :
    parse_xml cfgEx nowEx docBadRoomBadNat = .error (.valueError unaccompaniedChildMsg) :=
  (C8_pipeline cfgEx nowEx "A#w" docBadRoomBadNat (.valueError unaccompaniedChildMsg) 20
      [] (0, 0) pdEx).2.2.1 (by decide) (by decide) (by decide)

/-! ## C9: guest construction -/

/-- Every room of a successful `_parse_rooms` holds only `mkPax`-shaped
guests. -/
theorem parse_rooms_guests (cfg : Config) (groups : List (List (Option String)))
    (rooms : List (List Pax)) (h : parse_rooms cfg groups = .ok rooms) :
    ∀ room ∈ rooms, ∀ p ∈ room, ∃ a : Int,
      p = { type := if a ≤ cfg.childAgeLimit then "Child" else "Adult", age := a } := by
  induction groups generalizing rooms with
  | nil =>
    injection h with h
    subst h
    intro room hr
    exact absurd hr (List.not_mem_nil room)
  | cons g gs ih =>
    rw [parse_rooms_cons] at h
    cases hb : buildRoom cfg g with
    | error e => rw [hb, except_bind_error] at h; exact Except.noConfusion h
    | ok room0 =>
      rw [hb, except_bind_ok] at h
      cases hv : validate_room cfg room0 with
      | error e => rw [hv, except_bind_error] at h; exact Except.noConfusion h
      | ok u =>
        cases u
        rw [hv, except_bind_ok] at h
        cases hrest : parse_rooms cfg gs with
        | error e => rw [hrest, except_bind_error] at h; exact Except.noConfusion h
        | ok rest =>
          rw [hrest, except_bind_ok] at h
          injection h with h
          subst h
          intro room hr
          rcases List.mem_cons.mp hr with h0 | hmem
          · subst h0
            exact buildRoom_guests cfg g room hb
          · exact ih rest hrest room hmem

/-- Claim C9 counterexample: the claim says every guest in a successfully
built room has a non-negative age.  The code parses the `age` attribute
with `int()` and never checks its sign: the group with ages [-1, 30] builds
successfully, and its first guest has age -1 (classified Child, since
-1 ≤ cutoff). -/
theorem C9_guest_counterexample :
    parse_rooms cfgEx [[some "-1", some "30"]] =
      .ok [[{ type := "Child", age := -1 }, { type := "Adult", age := 30 }]] ∧
    ({ type := "Child", age := -1 } : Pax).age < 0 := by decide

/-- Claim C9, amended: a guest's age is the integer parsed from its `age`
attribute — which may be negative, no sign check is made — with 0 when the
attribute is absent; and in every successfully built room every guest is
classified Child exactly when its age is at most the child-age cutoff, and
is otherwise an Adult. -/
theorem C9_guest_amended (cfg : Config) (s : String) (a : Int)
    (groups : List (List (Option String))) (rooms : List (List Pax)) :
    (mkPax cfg none =
      .ok { type := if (0 : Int) ≤ cfg.childAgeLimit then "Child" else "Adult",
            age := 0 }) ∧
    (pyInt s = .ok a →
      mkPax cfg (some s) =
        .ok { type := if a ≤ cfg.childAgeLimit then "Child" else "Adult", age := a }) ∧
    (parse_rooms cfg groups = .ok rooms →
      ∀ room ∈ rooms, ∀ p ∈ room,
        (p.type = "Child" ↔ p.age ≤ cfg.childAgeLimit) ∧
        (p.type = "Child" ∨ p.type = "Adult")) := by
  refine ⟨rfl, ?_, ?_⟩
  · intro h
    rw [mkPax_def]
    show (pyInt s).bind _ = _
    rw [h, except_bind_ok]
  · intro h room hroom p hp
    obtain ⟨a', ha'⟩ := parse_rooms_guests cfg groups rooms h room hroom p hp
    exact pax_shape_props cfg p a' ha'

/-- Witness for C9: the attribute string "-1" parses to age -1 and, with
the modelled cutoff, yields a Child of negative age. -/
theorem C9_guest_amended_witness :
    mkPax cfgEx (some "-1") = .ok { type := "Child", age := -1 } :=
  ((C9_guest_amended cfgEx "-1" (-1) [] []).2.1 (by decide)).trans (by decide)

/-! ## C10: empty occupancy groups and the rooms key -/

/-- Claim C10: a `Paxes` group with no guest entries builds the empty room,
which passes all three occupancy checks and contributes an entry to the
room list; and the `rooms` key of the parsed record (copied unchanged into
the response) is present exactly when the parsed room list is non-empty,
which — since each group yields one room — happens exactly when the
document has at least one occupancy group. -/
theorem C10_rooms_key (cfg : Config) (now : Int) (uid : String) (doc : Doc)
    (pd : ParsedData) (gs : List (List (Option String))) (rl : List (List Pax)) :
    (buildRoom cfg [] = .ok [] ∧ validate_room cfg [] = .ok ()) ∧
    (parse_rooms cfg ([] :: gs) = (parse_rooms cfg gs).map (fun rs => [] :: rs)) ∧
    (parse_xml cfg now doc = .ok pd → parse_rooms cfg doc.paxesGroups = .ok rl →
      pd.rooms = (if rl.isEmpty then none else some rl) ∧
      (generate_response cfg uid pd).rooms = pd.rooms ∧
      (pd.rooms = none ↔ doc.paxesGroups = [])) := by
  refine ⟨⟨rfl, rfl⟩, ?_, ?_⟩
  · cases hr : parse_rooms cfg gs with
    | error e =>
      show (parse_rooms cfg gs).bind (fun rest => .ok ([] :: rest)) = _
      rw [hr, except_bind_error]
      rfl
    | ok rs =>
      show (parse_rooms cfg gs).bind (fun rest => .ok ([] :: rest)) = _
      rw [hr, except_bind_ok]
      rfl
  · intro h hrl
    obtain ⟨q, rooms, dates, hq, hc, hr, hv, hd, hpd⟩ := parse_xml_ok_inv cfg now doc pd h
    have hre : rooms = rl := by injection hr.symm.trans hrl
    subst hre
    subst hpd
    refine ⟨rfl, rfl, ?_⟩
    have hlen := parse_rooms_length cfg doc.paxesGroups rooms hr
    show (if rooms.isEmpty then none else some rooms) = none ↔ doc.paxesGroups = []
    cases rooms with
    | nil =>
      refine ⟨fun _ => List.length_eq_zero.mp hlen.symm, fun _ => rfl⟩
    | cons r rs =>
      refine ⟨fun h0 => ?_, fun h0 => ?_⟩
      · exact Option.noConfusion (show some (r :: rs) = none from h0)
      · rw [h0] at hlen
        exact absurd hlen (by simp)

/-- Witness for C10: the document with one empty occupancy group parses to
a record whose `rooms` key is present and holds the single empty room, and
the key is carried into the response. -/
theorem C10_rooms_key_witness :
    pdEmptyRoom.rooms = (if ([[]] : List (List Pax)).isEmpty then none else some [[]]) ∧
    (generate_response cfgEx "A#w" pdEmptyRoom).rooms = pdEmptyRoom.rooms ∧
    (pdEmptyRoom.rooms = none ↔ docEmptyGroup.paxesGroups = []) :=
  (C10_rooms_key cfgEx nowEx "A#w" docEmptyGroup pdEmptyRoom [] [[]]).2.2
    (by decide) (by decide)

end XmlRequestsParser
